import Mathlib

/-!
Verification of the task-registration core of chokoswitch/go-build
(`standard.go`): a shallow embedding of the configuration/option mechanism,
the conditional registration of the six leaf tasks, the dependency buckets,
and the five meta/standalone tasks, together with theorems about the
resulting task set.

The external task runner (goyek) is modelled as an explicit registry value
threaded through registration; the single filesystem probe
(`os.Stat("build/go.mod")`) is modelled as a Boolean input; the `test`
task's directory-creation step is modelled by an explicit `Except` input.
-/

namespace GoBuild

/-- The mutable configuration built from options (Go: `type config struct`). -/
structure config where
  artifactsPath : String
  excludeTasks : List String
deriving DecidableEq, Repr

/-- Go: `func (c *config) excluded(task string) bool  { return slices.Contains(c.excludeTasks, task) }`. -/
def config.excluded (c : config) (task : String) : Bool :=
  c.excludeTasks.contains task

/-- The `Option` interface of the source, a closed sum of its two
implementations: `artifactsPath` (a string type) and `excludeTasks`
(a struct holding a name list). Named `BuildOption` because `Option`
is taken in Lean. -/
inductive BuildOption where
  | artifactsPath (path : String)
  | excludeTasks (tasks : List String)
deriving DecidableEq, Repr

/-- The `apply` methods of the two Option implementations:
`func (a artifactsPath) apply(c *config)  { c.artifactsPath = string(a) }` and
`func (e excludeTasks) apply(c *config)  { c.excludeTasks = append(c.excludeTasks, e.tasks...) }`. -/
def BuildOption.apply : BuildOption → config → config
  | .artifactsPath p, c => { c with artifactsPath := p }
  | .excludeTasks ts, c => { c with excludeTasks := c.excludeTasks ++ ts }

/-- Go: `func ArtifactsPath(path string) Option  { return artifactsPath(path) }`. -/
def ArtifactsPath (path : String) : BuildOption :=
  .artifactsPath path

/-- Go: `func ExcludeTasks(task ...string) Option  { return excludeTasks{tasks: task} }`. -/
def ExcludeTasks (task : List String) : BuildOption :=
  .excludeTasks task

/-- The configuration-resolution prefix of `DefineTasks`:
`conf := config{artifactsPath: "out"}; for _, o := range opts { o.apply(&conf) }`. -/
def resolveConfig (opts : List BuildOption) : config :=
  opts.foldl (fun c o => o.apply c) { artifactsPath := "out", excludeTasks := [] }

/-- Modelled from the spec: version-pinned tool version string
`verGolangCILint`, defined in the repository outside `src/`; its exact
value is opaque to every claim. -/
def verGolangCILint : String := "verGolangCILint"

/-- Modelled from the spec: version-pinned tool version string
`verGoPrettier`, defined in the repository outside `src/`. -/
def verGoPrettier : String := "verGoPrettier"

/-- Modelled from the spec: version-pinned tool version string
`verGoYamllint`, defined in the repository outside `src/`. -/
def verGoYamllint : String := "verGoYamllint"

/-- Go's `filepath.Join` restricted to the two-element, already-clean
arguments used in `standard.go` (`filepath.Join("build", "go.mod")` and
`filepath.Join(conf.artifactsPath, "coverage.txt")`). -/
def filepathJoin (a b : String) : String :=
  if a = "" then b else if b = "" then a else a ++ "/" ++ b

/-- A single-quote character as a string, used inside command templates. -/
def sq : String := String.mk [Char.ofNat 39]

/-- A registered task (goyek `Task`): name, usage, parallel-eligibility,
the external command templates its action executes on its straight-line
(success) path, and its dependency list (by task name). -/
structure Task where
  name : String
  usage : String
  parallel : Bool
  cmds : List String
  deps : List String
deriving DecidableEq, Repr

/-- The ambient task-runner registry together with the three dependency
buckets. Modelled from the spec: the bucket variables (`formatTasks`,
`lintTasks`, `generateTasks`) are package-level ordered collections defined
outside `src/`, empty before registration begins (the base catalog defines
no code-generation leaf tasks). -/
structure Registry where
  tasks : List Task
  formatTasks : List String
  lintTasks : List String
  generateTasks : List String
deriving DecidableEq, Repr

/-- The empty registry before `DefineTasks` runs. -/
def Registry.empty : Registry :=
  { tasks := [], formatTasks := [], lintTasks := [], generateTasks := [] }

/-- `goyek.Define`: registers a task into the ambient registry. -/
def Registry.define (s : Registry) (t : Task) : Registry :=
  { s with tasks := s.tasks ++ [t] }

/-- Modelled from the spec: `RegisterFormatTask` (defined outside `src/`)
appends the registered task to the format dependency bucket. -/
def RegisterFormatTask (s : Registry) (t : Task) : Registry :=
  { s with formatTasks := s.formatTasks ++ [t.name] }

/-- Modelled from the spec: `RegisterLintTask` (defined outside `src/`)
appends the registered task to the lint dependency bucket. -/
def RegisterLintTask (s : Registry) (t : Task) : Registry :=
  { s with lintTasks := s.lintTasks ++ [t.name] }

/-- The Go-family target list: starts as `[]string{"./..."}` and gains
`"./build"` when `os.Stat(filepath.Join("build", "go.mod"))` succeeds.
The probe outcome is the Boolean input. -/
def golangciTargets (buildGoModExists : Bool) : List String :=
  if buildGoModExists then ["./...", "./build"] else ["./..."]

/-- The `format-go` task literal (source lines 31–38). -/
def formatGoTask (targets : List String) : Task :=
  { name := "format-go", usage := "Formats Go code.", parallel := true,
    cmds := ["go run github.com/golangci/golangci-lint/cmd/golangci-lint@" ++
      verGolangCILint ++ " run --fix --timeout=20m " ++ String.intercalate " " targets],
    deps := [] }

/-- The `lint-go` task literal (source lines 42–49). -/
def lintGoTask (targets : List String) : Task :=
  { name := "lint-go", usage := "Lints Go code.", parallel := true,
    cmds := ["go run github.com/golangci/golangci-lint/cmd/golangci-lint@" ++
      verGolangCILint ++ " run --timeout=20m " ++ String.intercalate " " targets],
    deps := [] }

/-- The `format-markdown` task literal (source lines 53–60). -/
def formatMarkdownTask : Task :=
  { name := "format-markdown", usage := "Formats Markdown code.", parallel := true,
    cmds := ["go run github.com/wasilibs/go-prettier/cmd/prettier@" ++ verGoPrettier ++
      " --no-error-on-unmatched-pattern --write " ++ sq ++ "**/*.md" ++ sq],
    deps := [] }

/-- The `lint-markdown` task literal (source lines 64–71). -/
def lintMarkdownTask : Task :=
  { name := "lint-markdown", usage := "Lints Markdown code.", parallel := true,
    cmds := ["go run github.com/wasilibs/go-prettier/cmd/prettier@" ++ verGoPrettier ++
      " --no-error-on-unmatched-pattern --check " ++ sq ++ "**/*.md" ++ sq],
    deps := [] }

/-- The `format-yaml` task literal (source lines 75–82). -/
def formatYamlTask : Task :=
  { name := "format-yaml", usage := "Formats YAML code.", parallel := true,
    cmds := ["go run github.com/wasilibs/go-prettier/cmd/prettier@" ++ verGoPrettier ++
      " --no-error-on-unmatched-pattern --write " ++ sq ++ "**/*.yaml" ++ sq ++ " " ++
      sq ++ "**/*.yml" ++ sq],
    deps := [] }

/-- The `lint-yaml` task literal (source lines 86–94); its action runs two
external commands. -/
def lintYamlTask : Task :=
  { name := "lint-yaml", usage := "Lints YAML code.", parallel := true,
    cmds := ["go run github.com/wasilibs/go-prettier/cmd/prettier@" ++ verGoPrettier ++
      " --no-error-on-unmatched-pattern --check " ++ sq ++ "**/*.yaml" ++ sq ++ " " ++
      sq ++ "**/*.yml" ++ sq,
      "go run github.com/wasilibs/go-yamllint/cmd/yamllint@" ++ verGoYamllint ++ " ."],
    deps := [] }

/-- The `go test` command template of the `test` task (source line 123). -/
def goTestCommand (artifactsPath : String) : String :=
  "go test -coverprofile=" ++ filepathJoin artifactsPath "coverage.txt" ++
    " -covermode=atomic -v -timeout=20m ./..."

/-- Outcome of running a task action: either the task was marked failed
with a message (without executing further commands and without terminating
the process), or the listed external commands were invoked. -/
inductive ExecResult where
  | taskFailed (msg : String)
  | execCmds (cmds : List String)
deriving DecidableEq, Repr

/-- The `test` task's action (source lines 118–124): `os.MkdirAll` on the
artifacts path first; on error, `a.Errorf("failed to create out directory: %v", err)`
and return; on success, run the coverage-instrumented `go test` command.
The `MkdirAll` outcome is the `Except` input. -/
def testAction (artifactsPath : String) (mkdirAllResult : Except String Unit) : ExecResult :=
  match mkdirAllResult with
  | .error err => .taskFailed ("failed to create out directory: " ++ err)
  | .ok _ => .execCmds [goTestCommand artifactsPath]

/-- The `test` task literal (source lines 115–125); `cmds` is the command
its action runs when directory creation succeeds (see `testAction`). -/
def testTask (artifactsPath : String) : Task :=
  { name := "test", usage := "Runs unit tests.", parallel := false,
    cmds := [goTestCommand artifactsPath], deps := [] }

/-- The registration body of `DefineTasks` after configuration resolution:
conditional leaf registration in source order, then the meta/standalone
tasks. Each `RegisterFormatTask (s.define t) t` mirrors
`RegisterFormatTask(goyek.Define(task))`. -/
def defineTasksCore (conf : config) (buildGoModExists : Bool) : Registry :=
  let targets := golangciTargets buildGoModExists
  let s := Registry.empty
  let s := if !conf.excluded "format-go" then
    RegisterFormatTask (s.define (formatGoTask targets)) (formatGoTask targets) else s
  let s := if !conf.excluded "lint-go" then
    RegisterLintTask (s.define (lintGoTask targets)) (lintGoTask targets) else s
  let s := if !conf.excluded "format-markdown" then
    RegisterFormatTask (s.define formatMarkdownTask) formatMarkdownTask else s
  let s := if !conf.excluded "lint-markdown" then
    RegisterLintTask (s.define lintMarkdownTask) lintMarkdownTask else s
  let s := if !conf.excluded "format-yaml" then
    RegisterFormatTask (s.define formatYamlTask) formatYamlTask else s
  let s := if !conf.excluded "lint-yaml" then
    RegisterLintTask (s.define lintYamlTask) lintYamlTask else s
  let s := s.define
    { name := "format", usage := "Format code in various languages.",
      parallel := false, cmds := [], deps := s.formatTasks }
  let s := s.define
    { name := "lint", usage := "Lints code in various languages.",
      parallel := false, cmds := [], deps := s.lintTasks }
  let s := s.define
    { name := "generate", usage := "Generates code.",
      parallel := false, cmds := [], deps := s.generateTasks }
  let s := s.define (testTask conf.artifactsPath)
  let s := s.define
    { name := "check", usage := "Runs all checks.",
      parallel := false, cmds := [], deps := ["lint", "test"] }
  s

/-- `DefineTasks(opts ...Option)`: resolve the configuration, then register
the catalog. `buildGoModExists` is the outcome of the single filesystem
probe `os.Stat(filepath.Join("build", "go.mod"))`. -/
def DefineTasks (opts : List BuildOption) (buildGoModExists : Bool) : Registry :=
  defineTasksCore (resolveConfig opts) buildGoModExists

/-- Names of all registered tasks, in registration order. -/
def taskNames (s : Registry) : List String :=
  s.tasks.map Task.name

/-- Dependency list of the task registered under a name (empty if absent). -/
def depsOf (n : String) (s : Registry) : List String :=
  ((s.tasks.find? (fun t => t.name == n)).map Task.deps).getD []

/-- Command templates of the task registered under a name (empty if absent). -/
def cmdsOf (n : String) (s : Registry) : List String :=
  ((s.tasks.find? (fun t => t.name == n)).map Task.cmds).getD []

/-- The six leaf-task names of the catalog. -/
def catalogLeafNames : List String :=
  ["format-go", "lint-go", "format-markdown", "lint-markdown", "format-yaml", "lint-yaml"]

/-- The five meta/standalone task names. -/
def metaTaskNames : List String :=
  ["format", "lint", "generate", "test", "check"]

/-- The dependency bucket a leaf task belongs to (format family or lint family). -/
def familyBucket (n : String) (s : Registry) : List String :=
  if n ∈ ["format-go", "format-markdown", "format-yaml"] then s.formatTasks else s.lintTasks

/-- The meta task aggregating a leaf task's family bucket. -/
def familyMetaName (n : String) : String :=
  if n ∈ ["format-go", "format-markdown", "format-yaml"] then "format" else "lint"

/-- Closed form of the format bucket after registration. -/
def expectedFormatBucket (conf : config) : List String :=
  (if conf.excluded "format-go" then [] else ["format-go"]) ++
  (if conf.excluded "format-markdown" then [] else ["format-markdown"]) ++
  (if conf.excluded "format-yaml" then [] else ["format-yaml"])

/-- Closed form of the lint bucket after registration. -/
def expectedLintBucket (conf : config) : List String :=
  (if conf.excluded "lint-go" then [] else ["lint-go"]) ++
  (if conf.excluded "lint-markdown" then [] else ["lint-markdown"]) ++
  (if conf.excluded "lint-yaml" then [] else ["lint-yaml"])

/-- Closed form of the registered task list. -/
def expectedTasks (conf : config) (fs : Bool) : List Task :=
  (if conf.excluded "format-go" then [] else [formatGoTask (golangciTargets fs)]) ++
  (if conf.excluded "lint-go" then [] else [lintGoTask (golangciTargets fs)]) ++
  (if conf.excluded "format-markdown" then [] else [formatMarkdownTask]) ++
  (if conf.excluded "lint-markdown" then [] else [lintMarkdownTask]) ++
  (if conf.excluded "format-yaml" then [] else [formatYamlTask]) ++
  (if conf.excluded "lint-yaml" then [] else [lintYamlTask]) ++
  [{ name := "format", usage := "Format code in various languages.",
     parallel := false, cmds := [], deps := expectedFormatBucket conf },
   { name := "lint", usage := "Lints code in various languages.",
     parallel := false, cmds := [], deps := expectedLintBucket conf },
   { name := "generate", usage := "Generates code.",
     parallel := false, cmds := [], deps := [] },
   testTask conf.artifactsPath,
   { name := "check", usage := "Runs all checks.",
     parallel := false, cmds := [], deps := ["lint", "test"] }]

/-- The registration body produces exactly the closed-form registry. -/
theorem defineTasksCore_eq (conf : config) (fs : Bool) :
    defineTasksCore conf fs =
      { tasks := expectedTasks conf fs,
        formatTasks := expectedFormatBucket conf,
        lintTasks := expectedLintBucket conf,
        generateTasks := [] } := by
  cases h1 : conf.excluded "format-go" <;>
  cases h2 : conf.excluded "lint-go" <;>
  cases h3 : conf.excluded "format-markdown" <;>
  cases h4 : conf.excluded "lint-markdown" <;>
  cases h5 : conf.excluded "format-yaml" <;>
  cases h6 : conf.excluded "lint-yaml" <;>
  simp [defineTasksCore, expectedTasks, expectedFormatBucket, expectedLintBucket,
    Registry.define, Registry.empty, RegisterFormatTask, RegisterLintTask,
    formatGoTask, lintGoTask, formatMarkdownTask, lintMarkdownTask,
    formatYamlTask, lintYamlTask, h1, h2, h3, h4, h5, h6]

/-- `find?` over a conditionally-registered singleton whose task does not
match the predicate. -/
theorem find?_bool_ite (b : Bool) (t : Task) (p : Task → Bool) (h : p t = false) :
    (if b then ([] : List Task) else [t]).find? p = none := by
  cases b <;> simp [h]

/-- Membership in a conditionally-registered singleton forces equality. -/
theorem eq_of_mem_bool_ite_singleton (b : Bool) (x t : Task)
    (h : t ∈ if b then ([] : List Task) else [x]) : t = x := by
  cases b <;> simp_all

/-- The names of the registered tasks, in closed form: the non-excluded
leaves in catalog order followed by the five meta tasks. -/
theorem taskNames_closed (conf : config) (fs : Bool) :
    taskNames (defineTasksCore conf fs) =
      catalogLeafNames.filter (fun m => !conf.excluded m) ++ metaTaskNames := by
  rw [defineTasksCore_eq]
  cases h1 : conf.excluded "format-go" <;>
  cases h2 : conf.excluded "lint-go" <;>
  cases h3 : conf.excluded "format-markdown" <;>
  cases h4 : conf.excluded "lint-markdown" <;>
  cases h5 : conf.excluded "format-yaml" <;>
  cases h6 : conf.excluded "lint-yaml" <;>
  simp [taskNames, expectedTasks, catalogLeafNames, metaTaskNames,
    formatGoTask, lintGoTask, formatMarkdownTask, lintMarkdownTask,
    formatYamlTask, lintYamlTask, testTask, h1, h2, h3, h4, h5, h6]

/-- The "format" meta task's dependency list is the final format bucket. -/
theorem depsOf_format_closed (conf : config) (fs : Bool) :
    depsOf "format" (defineTasksCore conf fs) = expectedFormatBucket conf := by
  rw [defineTasksCore_eq]
  simp [depsOf, expectedTasks, find?_bool_ite, formatGoTask, lintGoTask,
    formatMarkdownTask, lintMarkdownTask, formatYamlTask, lintYamlTask, testTask]

/-- The "lint" meta task's dependency list is the final lint bucket. -/
theorem depsOf_lint_closed (conf : config) (fs : Bool) :
    depsOf "lint" (defineTasksCore conf fs) = expectedLintBucket conf := by
  rw [defineTasksCore_eq]
  simp [depsOf, expectedTasks, find?_bool_ite, formatGoTask, lintGoTask,
    formatMarkdownTask, lintMarkdownTask, formatYamlTask, lintYamlTask, testTask]

/-- A format-family leaf name is in the format bucket iff not excluded. -/
theorem mem_expectedFormatBucket (conf : config) (n : String)
    (hn : n ∈ ["format-go", "format-markdown", "format-yaml"]) :
    n ∈ expectedFormatBucket conf ↔ conf.excluded n = false := by
  simp only [List.mem_cons, List.not_mem_nil, or_false] at hn
  rcases hn with rfl | rfl | rfl <;>
  cases h1 : conf.excluded "format-go" <;>
  cases h2 : conf.excluded "format-markdown" <;>
  cases h3 : conf.excluded "format-yaml" <;>
  simp [expectedFormatBucket, h1, h2, h3]

/-- A lint-family leaf name is in the lint bucket iff not excluded. -/
theorem mem_expectedLintBucket (conf : config) (n : String)
    (hn : n ∈ ["lint-go", "lint-markdown", "lint-yaml"]) :
    n ∈ expectedLintBucket conf ↔ conf.excluded n = false := by
  simp only [List.mem_cons, List.not_mem_nil, or_false] at hn
  rcases hn with rfl | rfl | rfl <;>
  cases h1 : conf.excluded "lint-go" <;>
  cases h2 : conf.excluded "lint-markdown" <;>
  cases h3 : conf.excluded "lint-yaml" <;>
  simp [expectedLintBucket, h1, h2, h3]

/-- A catalog leaf name is among the registered task names iff not excluded. -/
theorem mem_taskNames_iff (conf : config) (fs : Bool) (n : String)
    (hn : n ∈ catalogLeafNames) :
    n ∈ taskNames (defineTasksCore conf fs) ↔ conf.excluded n = false := by
  rw [taskNames_closed]
  simp only [catalogLeafNames, List.mem_cons, List.not_mem_nil, or_false] at hn
  rcases hn with rfl | rfl | rfl | rfl | rfl | rfl <;>
  simp [List.mem_append, List.mem_filter, catalogLeafNames, metaTaskNames]

/-- Registration depends on the configuration only through the artifacts
path and the exclusion status of the six catalog leaf names. -/
theorem defineTasksCore_congr (c1 c2 : config) (fs : Bool)
    (hp : c1.artifactsPath = c2.artifactsPath)
    (he : ∀ n ∈ catalogLeafNames, c1.excluded n = c2.excluded n) :
    defineTasksCore c1 fs = defineTasksCore c2 fs := by
  have h1 := he "format-go" (by simp [catalogLeafNames])
  have h2 := he "lint-go" (by simp [catalogLeafNames])
  have h3 := he "format-markdown" (by simp [catalogLeafNames])
  have h4 := he "lint-markdown" (by simp [catalogLeafNames])
  have h5 := he "format-yaml" (by simp [catalogLeafNames])
  have h6 := he "lint-yaml" (by simp [catalogLeafNames])
  rw [defineTasksCore_eq, defineTasksCore_eq]
  simp [expectedTasks, expectedFormatBucket, expectedLintBucket, testTask,
    hp, h1, h2, h3, h4, h5, h6]

/-- C7: with no options the resolved configuration has artifactsPath "out"
and an empty excluded-task set (no task name is excluded), and resolution is
a total, error-free data transformation that accepts even a malformed empty
path as-is. -/
theorem resolveConfig_defaults :
    resolveConfig [] = { artifactsPath := "out", excludeTasks := [] } ∧
    (∀ t : String, (resolveConfig []).excluded t = false) ∧
    (resolveConfig [ArtifactsPath ""]).artifactsPath = "" := by
  exact ⟨rfl, fun t => rfl, rfl⟩

/-- C10: each Option variant touches only its own configuration field —
an ArtifactsPath option leaves excludeTasks unchanged, an ExcludeTasks
option leaves artifactsPath unchanged — and consequently the two kinds of
option commute. -/
theorem option_frame_and_commute (p : String) (ns : List String) (c : config) :
    ((ArtifactsPath p).apply c).excludeTasks = c.excludeTasks ∧
    ((ExcludeTasks ns).apply c).artifactsPath = c.artifactsPath ∧
    (ExcludeTasks ns).apply ((ArtifactsPath p).apply c) =
      (ArtifactsPath p).apply ((ExcludeTasks ns).apply c) := by
  exact ⟨rfl, rfl, rfl⟩

/-- C6: options are applied sequentially in the order supplied; each
ArtifactsPath option unconditionally overwrites artifactsPath (the last one
wins), each ExcludeTasks option unions its names into the excluded set, and
duplicate names — across calls or within one call — leave the excluded
predicate unchanged. -/
theorem option_application_order (opts : List BuildOption) (o : BuildOption)
    (p : String) (ns : List String) (c : config) (t : String) :
    resolveConfig (opts ++ [o]) = o.apply (resolveConfig opts) ∧
    ((ArtifactsPath p).apply c).artifactsPath = p ∧
    ((ExcludeTasks ns).apply c).excludeTasks = c.excludeTasks ++ ns ∧
    (resolveConfig (opts ++ [ArtifactsPath p])).artifactsPath = p ∧
    ((ExcludeTasks ns).apply ((ExcludeTasks ns).apply c)).excluded t =
      ((ExcludeTasks ns).apply c).excluded t ∧
    ((ExcludeTasks (ns ++ ns)).apply c).excluded t =
      ((ExcludeTasks ns).apply c).excluded t := by
  refine ⟨?_, rfl, rfl, ?_, ?_, ?_⟩
  · simp [resolveConfig, List.foldl_append]
  · simp [resolveConfig, List.foldl_append, BuildOption.apply, ArtifactsPath]
  · simp only [config.excluded, BuildOption.apply, ExcludeTasks, List.elem_eq_mem,
      List.contains_eq_any_beq]
    refine decide_eq_decide.mpr ?_
    simp [List.mem_append]
  · simp only [config.excluded, BuildOption.apply, ExcludeTasks, List.elem_eq_mem,
      List.contains_eq_any_beq]
    refine decide_eq_decide.mpr ?_
    simp [List.mem_append]

/-- C2: with zero options, exactly the six leaf tasks and five meta tasks
are registered (in registration order); the "format" meta task depends on
exactly format-go, format-markdown, format-yaml, and "check" depends on
exactly lint and test — independently of the filesystem probe. -/
theorem defineTasks_no_options (fs : Bool) :
    taskNames (DefineTasks [] fs) =
      ["format-go", "lint-go", "format-markdown", "lint-markdown",
       "format-yaml", "lint-yaml", "format", "lint", "generate", "test", "check"] ∧
    depsOf "format" (DefineTasks [] fs) = ["format-go", "format-markdown", "format-yaml"] ∧
    depsOf "check" (DefineTasks [] fs) = ["lint", "test"] := by
  cases fs <;> exact ⟨rfl, rfl, rfl⟩

/-- C4: the "test" task's action first creates the artifacts directory;
on failure it marks the task failed with a descriptive message and runs no
command; on success it runs the unit-test command with the coverage file at
artifactsPath/coverage.txt — so with ArtifactsPath "dist" the coverage path
is dist/coverage.txt rather than out/coverage.txt. -/
theorem testTask_action_spec (p err : String) (fs : Bool) :
    testAction p (.error err) =
      .taskFailed ("failed to create out directory: " ++ err) ∧
    testAction p (.ok ()) = .execCmds [goTestCommand p] ∧
    goTestCommand p =
      "go test -coverprofile=" ++ filepathJoin p "coverage.txt" ++
        " -covermode=atomic -v -timeout=20m ./..." ∧
    (resolveConfig [ArtifactsPath "dist"]).artifactsPath = "dist" ∧
    cmdsOf "test" (DefineTasks [ArtifactsPath "dist"] fs) = [goTestCommand "dist"] ∧
    goTestCommand "dist" =
      "go test -coverprofile=dist/coverage.txt -covermode=atomic -v -timeout=20m ./..." ∧
    goTestCommand "out" =
      "go test -coverprofile=out/coverage.txt -covermode=atomic -v -timeout=20m ./..." := by
  refine ⟨rfl, rfl, rfl, rfl, ?_, ?_, ?_⟩
  · cases fs <;> rfl
  · rfl
  · rfl

/-- C1: for every option list, a catalog leaf task is registered iff it was
not excluded, it is in its family's dependency bucket iff it was not
excluded, and the corresponding meta task's dependency list is exactly that
bucket — so an excluded leaf is absent from the task set, the bucket, and
the meta task's dependencies. -/
theorem leaf_registered_iff_not_excluded (opts : List BuildOption) (fs : Bool)
    (n : String) (hn : n ∈ catalogLeafNames) :
    (n ∈ taskNames (DefineTasks opts fs) ↔ (resolveConfig opts).excluded n = false) ∧
    (n ∈ familyBucket n (DefineTasks opts fs) ↔ (resolveConfig opts).excluded n = false) ∧
    depsOf (familyMetaName n) (DefineTasks opts fs) =
      familyBucket n (DefineTasks opts fs) := by
  have e := defineTasksCore_eq (resolveConfig opts) fs
  refine ⟨mem_taskNames_iff (resolveConfig opts) fs n hn, ?_, ?_⟩
  · simp only [catalogLeafNames, List.mem_cons, List.not_mem_nil, or_false] at hn
    rcases hn with rfl | rfl | rfl | rfl | rfl | rfl <;>
    simp only [DefineTasks, e, familyBucket] <;>
    first
      | simpa using mem_expectedFormatBucket (resolveConfig opts) _ (by simp)
      | simpa using mem_expectedLintBucket (resolveConfig opts) _ (by simp)
  · simp only [catalogLeafNames, List.mem_cons, List.not_mem_nil, or_false] at hn
    rcases hn with rfl | rfl | rfl | rfl | rfl | rfl <;>
    simp only [DefineTasks] <;>
    simp [familyMetaName, familyBucket] <;>
    first
      | (rw [depsOf_format_closed, e])
      | (rw [depsOf_lint_closed, e])

/-- Witness for C1 at a concrete input: excluding "lint-markdown" removes it
from the task set and the lint bucket. -/
theorem leaf_registered_iff_not_excluded_witness :
    ("lint-markdown" ∈ taskNames (DefineTasks [ExcludeTasks ["lint-markdown"]] false) ↔
      (resolveConfig [ExcludeTasks ["lint-markdown"]]).excluded "lint-markdown" = false) ∧
    ("lint-markdown" ∈ familyBucket "lint-markdown"
        (DefineTasks [ExcludeTasks ["lint-markdown"]] false) ↔
      (resolveConfig [ExcludeTasks ["lint-markdown"]]).excluded "lint-markdown" = false) ∧
    depsOf (familyMetaName "lint-markdown") (DefineTasks [ExcludeTasks ["lint-markdown"]] false) =
      familyBucket "lint-markdown" (DefineTasks [ExcludeTasks ["lint-markdown"]] false) :=
  leaf_registered_iff_not_excluded [ExcludeTasks ["lint-markdown"]] false
    "lint-markdown" (by decide)

/-- C3: when the build/go.mod probe succeeds the Go-family target list is
["./...", "./build"], otherwise exactly ["./..."], and that list is what is
passed (space-joined) to both the format-go and lint-go external commands. -/
theorem golangciTargets_spec (opts : List BuildOption) (fs : Bool)
    (hf : (resolveConfig opts).excluded "format-go" = false)
    (hl : (resolveConfig opts).excluded "lint-go" = false) :
    golangciTargets true = ["./...", "./build"] ∧
    golangciTargets false = ["./..."] ∧
    cmdsOf "format-go" (DefineTasks opts fs) =
      ["go run github.com/golangci/golangci-lint/cmd/golangci-lint@" ++ verGolangCILint ++
        " run --fix --timeout=20m " ++ String.intercalate " " (golangciTargets fs)] ∧
    cmdsOf "lint-go" (DefineTasks opts fs) =
      ["go run github.com/golangci/golangci-lint/cmd/golangci-lint@" ++ verGolangCILint ++
        " run --timeout=20m " ++ String.intercalate " " (golangciTargets fs)] := by
  refine ⟨rfl, rfl, ?_, ?_⟩ <;>
  · simp only [DefineTasks]
    rw [defineTasksCore_eq]
    simp [cmdsOf, expectedTasks, hf, hl, find?_bool_ite,
      formatGoTask, lintGoTask, formatMarkdownTask, lintMarkdownTask,
      formatYamlTask, lintYamlTask, testTask]

/-- Witness for C3 at a concrete input: no options, probe succeeds. -/
theorem golangciTargets_spec_witness :
    golangciTargets true = ["./...", "./build"] ∧
    golangciTargets false = ["./..."] ∧
    cmdsOf "format-go" (DefineTasks [] true) =
      ["go run github.com/golangci/golangci-lint/cmd/golangci-lint@" ++ verGolangCILint ++
        " run --fix --timeout=20m " ++ String.intercalate " " (golangciTargets true)] ∧
    cmdsOf "lint-go" (DefineTasks [] true) =
      ["go run github.com/golangci/golangci-lint/cmd/golangci-lint@" ++ verGolangCILint ++
        " run --timeout=20m " ++ String.intercalate " " (golangciTargets true)] :=
  golangciTargets_spec [] true rfl rfl

/-- C5: an ExcludeTasks option whose names all match no catalog leaf name
leaves registration entirely unchanged — same task set, same buckets, no
error. -/
theorem unknown_exclusions_no_effect (opts : List BuildOption)
    (names : List String) (fs : Bool)
    (h : ∀ n ∈ names, n ∉ catalogLeafNames) :
    DefineTasks (opts ++ [ExcludeTasks names]) fs = DefineTasks opts fs := by
  simp only [DefineTasks]
  apply defineTasksCore_congr
  · simp [resolveConfig, List.foldl_append, BuildOption.apply, ExcludeTasks]
  · intro n hn
    have hnn : n ∉ names := fun hmem => h n hmem hn
    simp only [resolveConfig, List.foldl_append, List.foldl_cons, List.foldl_nil,
      BuildOption.apply, ExcludeTasks, config.excluded]
    simp only [List.elem_eq_mem]
    refine decide_eq_decide.mpr ?_
    simp [List.mem_append, hnn]

/-- Witness for C5 at a concrete input: excluding an unknown name. -/
theorem unknown_exclusions_no_effect_witness :
    DefineTasks ([] ++ [ExcludeTasks ["no-such-task"]]) false = DefineTasks [] false :=
  unknown_exclusions_no_effect [] ["no-such-task"] false (by decide)

/-- C9: the five meta/standalone tasks are registered for every option
list, and excluding their names has no effect, since exclusion is consulted
only for the six leaf registrations. -/
theorem meta_tasks_always_registered (opts : List BuildOption) (fs : Bool) :
    metaTaskNames.all (fun n => (taskNames (DefineTasks opts fs)).contains n) = true ∧
    DefineTasks (opts ++ [ExcludeTasks metaTaskNames]) fs = DefineTasks opts fs := by
  constructor
  · simp only [DefineTasks]
    rw [metaTaskNames, List.all_eq_true]
    intro n hn
    rw [taskNames_closed]
    simp only [List.elem_eq_mem, decide_eq_true_eq]
    simp only [List.mem_append, metaTaskNames]
    exact Or.inr hn
  · simp only [DefineTasks]
    apply defineTasksCore_congr
    · simp [resolveConfig, List.foldl_append, BuildOption.apply, ExcludeTasks]
    · intro n hn
      have hnn : n ∉ metaTaskNames := by
        simp only [catalogLeafNames, List.mem_cons, List.not_mem_nil, or_false] at hn
        rcases hn with rfl | rfl | rfl | rfl | rfl | rfl <;> decide
      simp only [resolveConfig, List.foldl_append, List.foldl_cons, List.foldl_nil,
        BuildOption.apply, ExcludeTasks, config.excluded]
      simp only [List.elem_eq_mem]
      refine decide_eq_decide.mpr ?_
      simp [List.mem_append, hnn]

/-- C8: every registered task bearing a catalog leaf name has its
parallel-eligible flag set, and its action invokes exactly two external
command templates for lint-yaml and exactly one for the other five leaves. -/
theorem leaf_tasks_parallel_and_cmds (opts : List BuildOption) (fs : Bool)
    (t : Task) (ht : t ∈ (DefineTasks opts fs).tasks)
    (hn : t.name ∈ catalogLeafNames) :
    t.parallel = true ∧
    t.cmds.length = (if t.name = "lint-yaml" then 2 else 1) := by
  simp only [DefineTasks] at ht
  rw [defineTasksCore_eq] at ht
  simp only [expectedTasks, List.mem_append] at ht
  rcases ht with ((((((h | h) | h) | h) | h) | h) | h)
  · have h' := eq_of_mem_bool_ite_singleton _ _ _ h
    subst h'
    simp [formatGoTask]
  · have h' := eq_of_mem_bool_ite_singleton _ _ _ h
    subst h'
    simp [lintGoTask]
  · have h' := eq_of_mem_bool_ite_singleton _ _ _ h
    subst h'
    simp [formatMarkdownTask]
  · have h' := eq_of_mem_bool_ite_singleton _ _ _ h
    subst h'
    simp [lintMarkdownTask]
  · have h' := eq_of_mem_bool_ite_singleton _ _ _ h
    subst h'
    simp [formatYamlTask]
  · have h' := eq_of_mem_bool_ite_singleton _ _ _ h
    subst h'
    simp [lintYamlTask]
  · exfalso
    simp only [List.mem_cons, List.not_mem_nil, or_false] at h
    rcases h with h1 | h1 | h1 | h1 | h1 <;>
    · rw [h1] at hn
      simp [catalogLeafNames, testTask] at hn

/-- Witness for C8 at a concrete input: the format-go task as registered
with no options and a failing probe. -/
theorem leaf_tasks_parallel_and_cmds_witness :
    (formatGoTask (golangciTargets false)).parallel = true ∧
    (formatGoTask (golangciTargets false)).cmds.length =
      (if (formatGoTask (golangciTargets false)).name = "lint-yaml" then 2 else 1) :=
  leaf_tasks_parallel_and_cmds [] false (formatGoTask (golangciTargets false))
    (by simp [DefineTasks, defineTasksCore_eq, expectedTasks, resolveConfig,
      config.excluded]) (by decide)

end GoBuild
